import Mathlib

/-!
Shallow embedding of the authentication/session core and the contacts
repository of the `goit-pythonweb-hw-12` FastAPI backend, together with
theorems settling the specification claims.

Conventions:
* Python exceptions and HTTP error responses are modelled by `Except Fault`.
* Machine time is an `Int` count of seconds; `datetime.now()` is an explicit
  `now` parameter.
* bcrypt digests are modelled abstractly: a well-formed digest remembers the
  plaintext it hashes (verification compares plaintexts), a malformed digest
  is an arbitrary string that passlib cannot identify.
-/

/-- An HTTP error response as raised by `fastapi.HTTPException`:
status code, detail message and extra headers. -/
structure HttpError where
  status : Nat
  detail : String
  headers : List (String × String)
  deriving Repr, DecidableEq

/-- A fault escaping a handler: either a deliberate `HTTPException`
or an unhandled Python exception. -/
inductive Fault where
  | http (e : HttpError)
  | attributeError (attr : String)
  | keyError (key : String)
  | unknownHashError
  | redisConnectionError
  | valueError (msg : String)
  | multipleResultsFound
  deriving Repr, DecidableEq

/-- `credential_exception` from src/services/auth.py. -/
def credential_exception : HttpError :=
  ⟨401, "Could not validate credentials", [("WWW-Authenticate", "Bearer")]⟩

/-- `Role` enumeration from src/database/models/users.py. -/
inductive Role where
  | admin
  | moderator
  | user
  deriving Repr, DecidableEq

/-- A stored password digest.  `bcrypt p` stands for a well-formed bcrypt
hash of plaintext `p` (salt and cost abstracted away); `malformed raw` is a
string that passlib cannot identify as any known hash format. -/
inductive Digest where
  | bcrypt (ofPlaintext : String)
  | malformed (raw : String)
  deriving Repr, DecidableEq

/-- The `users` ORM row from src/database/models/users.py. -/
structure UserRec where
  id : Int
  username : String
  email : String
  password : Digest
  confirmed : Bool
  avatar : Option String
  roles : Role
  deriving Repr, DecidableEq

/-- The `User` response schema from src/schemas/users.py
(id, email, username, avatar, roles). -/
structure SchemaUser where
  id : Int
  email : String
  username : String
  avatar : Option String
  roles : Role
  deriving Repr, DecidableEq

/-- `User.model_validate(user)`: project an ORM row to the response schema. -/
def toSchemaUser (u : UserRec) : SchemaUser :=
  ⟨u.id, u.email, u.username, u.avatar, u.roles⟩

/-- `Hash.verify_password` from src/services/auth.py, which returns
`self.pwd_context.verify(plain_password, hashed_password)`.  passlib's
`CryptContext.verify` compares the plaintext against a recognised bcrypt
digest, and raises `UnknownHashError` when the digest cannot be identified
as any configured hash format. -/
def Hash.verify_password (plain : String) (digest : Digest) : Except Fault Bool :=
  match digest with
  | .bcrypt p => .ok (plain == p)
  | .malformed _ => .error .unknownHashError

/-- `Hash.get_password_hash` from src/services/auth.py: bcrypt-hash the
plaintext (always producing a well-formed digest). -/
def Hash.get_password_hash (password : String) : Digest :=
  .bcrypt password

/-- The `Settings` fields actually used by the token codec
(src/conf/settings.py): `JWT_SECRET`, `JWT_ALGORITHM`, `JWT_EXP_MIN`. -/
structure Settings where
  JWT_SECRET : String
  JWT_ALGORITHM : String
  JWT_EXP_MIN : Int
  deriving Repr, DecidableEq

/-- Every field declared on `class Settings` in src/conf/settings.py,
transcribed verbatim.  `model_config` sets `extra="ignore"`, so no other
attribute exists on the settings object. -/
def settingsFieldNames : List String :=
  ["DB_URL", "JWT_SECRET", "JWT_ALGORITHM", "JWT_EXP_MIN",
   "MAIL_USERNAME", "MAIL_PASSWORD", "MAIL_FROM", "MAIL_PORT", "MAIL_SERVER",
   "MAIL_FROM_NAME", "MAIL_STARTTLS", "MAIL_SSL_TLS", "USE_CREDENTIALS",
   "VALIDATE_CERTS", "CLD_NAME", "CLD_API_KEY", "CLD_API_SECRET",
   "REDIS_HOST", "REDIS_PORT"]

/-- The attribute access `settings.JWT_REFRESH_EXP_DAYS` performed by
`create_refresh_token` (src/services/auth.py line 89).  `settingsFieldNames`
lists every field of `class Settings`; `JWT_REFRESH_EXP_DAYS` is not among
them, so the Python attribute lookup raises `AttributeError`. -/
def Settings.JWT_REFRESH_EXP_DAYS (_ : Settings) : Except Fault Int :=
  if "JWT_REFRESH_EXP_DAYS" ∈ settingsFieldNames then
    .ok 0  -- unreachable: the field list above contains no such name
  else
    .error (.attributeError "JWT_REFRESH_EXP_DAYS")

/-- The default settings values from src/conf/settings.py. -/
def defaultSettings : Settings :=
  ⟨"your_jwt_secret", "HS256", 60⟩

/-- A JWT payload: the claims this codebase reads or writes
(`sub`, `type`, `iat`, `exp`). -/
structure Payload where
  sub : Option String
  type : Option String
  iat : Option Int
  exp : Option Int
  deriving Repr, DecidableEq

/-- A signed JWT: the payload together with the secret it was signed with
(the signature is abstracted as knowledge of the signing key). -/
structure JwtToken where
  payload : Payload
  sig : String
  deriving Repr, DecidableEq

/-- `jose.jwt.encode(payload, key, algorithm)`. -/
def joseEncode (payload : Payload) (key : String) : JwtToken :=
  ⟨payload, key⟩

/-- `jose.jwt.decode(token, key, algorithms)`: raises `JWTError` on a
signature mismatch, and `ExpiredSignatureError` (a `JWTError`) when the
`exp` claim is in the past; otherwise returns the payload. -/
def joseDecode (token : JwtToken) (key : String) (now : Int) : Except Unit Payload :=
  if token.sig ≠ key then .error ()
  else
    match token.payload.exp with
    | some e => if e < now then .error () else .ok token.payload
    | none => .ok token.payload

/-- `create_access_token` from src/services/auth.py with the default
`expires_delta`: payload `{sub, exp: now + minutes(JWT_EXP_MIN),
type: "access"}` signed with `JWT_SECRET`. -/
def create_access_token (s : Settings) (now : Int) (sub : String) : JwtToken :=
  joseEncode ⟨some sub, some "access", none, some (now + 60 * s.JWT_EXP_MIN)⟩ s.JWT_SECRET

/-- `create_refresh_token` from src/services/auth.py: reads
`settings.JWT_REFRESH_EXP_DAYS` to compute the expiry, then signs
`{sub, exp, type: "refresh"}`. -/
def create_refresh_token (s : Settings) (now : Int) (sub : String) :
    Except Fault JwtToken :=
  match s.JWT_REFRESH_EXP_DAYS with
  | .error e => .error e
  | .ok days =>
      .ok (joseEncode ⟨some sub, some "refresh", none, some (now + 86400 * days)⟩
        s.JWT_SECRET)

/-- The `Token` response schema from src/schemas/users.py. -/
structure TokenPair where
  access_token : JwtToken
  refresh_token : JwtToken
  token_type : String
  deriving Repr, DecidableEq

/-- `create_token_pair` from src/services/auth.py. -/
def create_token_pair (s : Settings) (now : Int) (sub : String) :
    Except Fault TokenPair :=
  let access := create_access_token s now sub
  match create_refresh_token s now sub with
  | .error e => .error e
  | .ok refresh => .ok ⟨access, refresh, "bearer"⟩

/-- `create_email_token` from src/services/auth.py: payload
`{sub, iat: now, exp: now + 7 days}` — note: no `type` claim. -/
def create_email_token (s : Settings) (now : Int) (sub : String) : JwtToken :=
  joseEncode ⟨some sub, none, some now, some (now + 86400 * 7)⟩ s.JWT_SECRET

/-- `jwt_decode` from src/services/auth.py: any `JWTError` (bad signature,
malformed, expired) becomes the 401 `credential_exception`. -/
def jwt_decode (s : Settings) (now : Int) (token : JwtToken) :
    Except Fault Payload :=
  match joseDecode token s.JWT_SECRET now with
  | .ok payload => .ok payload
  | .error _ => .error (.http credential_exception)

/-- The 401 "Invalid token type" error raised by `get_current_user` and
`get_username_from_token_refresh`. -/
def invalidTokenTypeError : HttpError :=
  ⟨401, "Invalid token type", [("WWW-Authenticate", "Bearer")]⟩

/-- `get_email_from_token` from src/services/auth.py: decode, then return
`payload["sub"]` (a `KeyError` if absent — not caught, since only `JWTError`
is); a `JWTError` becomes 422 "Uncorrect token for email check".  No check
of the `type` claim is performed. -/
def get_email_from_token (s : Settings) (now : Int) (token : JwtToken) :
    Except Fault String :=
  match joseDecode token s.JWT_SECRET now with
  | .error _ => .error (.http ⟨422, "Uncorrect token for email check", []⟩)
  | .ok payload =>
      match payload.sub with
      | none => .error (.keyError "sub")
      | some email => .ok email

/-- `get_username_from_token_refresh` from src/services/auth.py: decode,
read `payload["sub"]`, then reject with 401 "Invalid token type" unless the
`type` claim is `"refresh"`; a `JWTError` becomes 422. -/
def get_username_from_token_refresh (s : Settings) (now : Int)
    (token : JwtToken) : Except Fault String :=
  match joseDecode token s.JWT_SECRET now with
  | .error _ => .error (.http ⟨422, "Uncorrect token for username check", []⟩)
  | .ok payload =>
      match payload.sub with
      | none => .error (.keyError "sub")
      | some username =>
          if payload.type ≠ some "refresh" then
            .error (.http invalidTokenTypeError)
          else
            .ok username

/-- One Redis key with its value (a pickled user row) and absolute expiry. -/
structure RedisEntry where
  key : String
  value : UserRec
  expiresAt : Int
  deriving Repr, DecidableEq

/-- The Redis client: `available` models whether the server is reachable
(an unreachable server makes every command raise a connection error). -/
structure Redis where
  available : Bool
  entries : List RedisEntry
  deriving Repr, DecidableEq

/-- `redis_client.get(key)`: a key that is absent or past its TTL reads as
`None`; an unreachable server raises. -/
def redis_get (r : Redis) (key : String) (now : Int) :
    Except Fault (Option UserRec) :=
  if r.available then
    .ok ((r.entries.find? (fun e => e.key == key && decide (now < e.expiresAt))).map
      (·.value))
  else
    .error .redisConnectionError

/-- `redis_client.set(key, value, ex)`: store with TTL `ex` seconds. -/
def redis_set (r : Redis) (key : String) (value : UserRec) (now ex : Int) :
    Except Fault Redis :=
  if r.available then
    .ok ⟨r.available, ⟨key, value, now + ex⟩ :: r.entries.filter (fun e => e.key != key)⟩
  else
    .error .redisConnectionError

/-- `redis_client.delete(key)`. -/
def redis_delete (r : Redis) (key : String) : Except Fault Redis :=
  if r.available then
    .ok ⟨r.available, r.entries.filter (fun e => e.key != key)⟩
  else
    .error .redisConnectionError

/-- `UserRepository.get_user_by_username` from src/repository/users.py. -/
def get_user_by_username (db : List UserRec) (username : String) :
    Option UserRec :=
  db.find? (fun u => u.username == username)

/-- `UserRepository.get_user_by_email` from src/repository/users.py. -/
def get_user_by_email (db : List UserRec) (email : String) : Option UserRec :=
  db.find? (fun u => u.email == email)

/-- `get_current_user` from src/services/auth.py: decode the bearer token,
require `type == "access"`, look the subject up in Redis first
(`username:{sub}` key), fall back to the persistent store on a miss and
populate the cache with a 60-second TTL.  Redis failures are not caught. -/
def get_current_user (s : Settings) (r : Redis) (db : List UserRec)
    (now : Int) (token : JwtToken) : Except Fault (SchemaUser × Redis) :=
  match jwt_decode s now token with
  | .error e => .error e
  | .ok payload =>
      if payload.type ≠ some "access" then
        .error (.http invalidTokenTypeError)
      else
        let key := "username:" ++ payload.sub.getD "None"
        match redis_get r key now with
        | .error e => .error e
        | .ok (some cached) => .ok (toSchemaUser cached, r)
        | .ok none =>
            match payload.sub.bind (get_user_by_username db) with
            | none => .error (.http credential_exception)
            | some user =>
                match redis_set r key user now 60 with
                | .error e => .error e
                | .ok r' => .ok (toSchemaUser user, r')

/-- The generic 401 raised by `login_user` for an unknown username or a
wrong password. -/
def incorrectLoginError : HttpError :=
  ⟨401, "Incorrect login or password", [("WWW-Authenticate", "Bearer")]⟩

/-- The 401 raised by `login_user` for an unconfirmed email. -/
def emailNotConfirmedError : HttpError :=
  ⟨401, "Email address not confirmed", []⟩

/-- `login_user` from src/api/auth.py: look up the user; the same generic
401 for "no such user" and "wrong password"; 401 "Email address not
confirmed" for an unconfirmed account; otherwise issue the token pair. -/
def login_user (s : Settings) (db : List UserRec) (now : Int)
    (username password : String) : Except Fault TokenPair :=
  match get_user_by_username db username with
  | none => .error (.http incorrectLoginError)
  | some user =>
      match Hash.verify_password password user.password with
      | .error e => .error e
      | .ok ok =>
          if !ok then .error (.http incorrectLoginError)
          else if !user.confirmed then .error (.http emailNotConfirmedError)
          else create_token_pair s now user.username

/-- Every method defined on `class UserRepository` in
src/repository/users.py, transcribed verbatim. -/
def userRepositoryMethodNames : List String :=
  ["__init__", "get_user_by_id", "get_user_by_username", "get_user_by_email",
   "create_user", "confirmed_email", "update_avatar_url"]

/-- `UserService.update_user_password` from src/services/users.py forwards to
`self.user_repository.update_user_password(user, new_password)`.
`userRepositoryMethodNames` lists every method of `UserRepository`;
`update_user_password` is not among them, so the Python attribute lookup
raises `AttributeError` before any database access. -/
def UserService.update_user_password (db : List UserRec) (_user : UserRec)
    (_newHash : Digest) : Except Fault (List UserRec) :=
  if "update_user_password" ∈ userRepositoryMethodNames then
    .ok db  -- unreachable: the method list above contains no such name
  else
    .error (.attributeError "update_user_password")

/-- The 400 "Verification error" raised by `reset_password` and
`confirmed_email` when the token's email matches no user. -/
def verificationError : HttpError :=
  ⟨400, "Verification error", []⟩

/-- `reset_password` from src/api/auth.py: extract the email from the token,
look the user up, hash the new password and call
`UserService.update_user_password`; on success answer
"password successfully saved". -/
def reset_password (s : Settings) (db : List UserRec) (now : Int)
    (token : JwtToken) (new_password : String) :
    Except Fault (String × List UserRec) :=
  match get_email_from_token s now token with
  | .error e => .error e
  | .ok email =>
      match get_user_by_email db email with
      | none => .error (.http verificationError)
      | some user =>
          let hashed := Hash.get_password_hash new_password
          match UserService.update_user_password db user hashed with
          | .error e => .error e
          | .ok db' => .ok ("password successfully saved", db')

/-- Modules that import `src.events.user_cache`, transcribed from the import
graph of the repository: `main.py` imports only `src.api.{contacts, utils,
auth, users}`, and no module anywhere imports `src.events`, so the list is
empty. -/
def modulesImportingUserCacheEvents : List String := []

/-- Whether the SQLAlchemy `after_update` / `after_delete` listeners of
src/events/user_cache.py are registered: `event.listens_for` runs when the
module is loaded, so the listeners exist exactly when some loaded module
imports `src.events.user_cache`. -/
def userCacheListenersRegistered : Bool :=
  !modulesImportingUserCacheEvents.isEmpty

/-- `clear_user_cache` from src/events/user_cache.py: delete the
`username:{target.username}` Redis key. -/
def clear_user_cache (r : Redis) (target : UserRec) : Except Fault Redis :=
  redis_delete r ("username:" ++ target.username)

/-- The SQLAlchemy `after_update` hook point: fires `clear_user_cache` only
when the listener is registered. -/
def sqlalchemyAfterUpdate (r : Redis) (target : UserRec) : Except Fault Redis :=
  if userCacheListenersRegistered then clear_user_cache r target else .ok r

/-- `UserRepository.update_avatar_url` from src/repository/users.py: find
the user by email, set the avatar, commit (which would fire any registered
`after_update` listener). -/
def update_avatar_url (db : List UserRec) (r : Redis) (email url : String) :
    Except Fault (Option UserRec × List UserRec × Redis) :=
  match get_user_by_email db email with
  | none => .ok (none, db, r)
  | some user =>
      let user' := { user with avatar := some url }
      let db' := db.map (fun u => if u.id == user.id then user' else u)
      match sqlalchemyAfterUpdate r user' with
      | .error e => .error e
      | .ok r' => .ok (some user', db', r')

/-- `UserRepository.confirmed_email` from src/repository/users.py: find the
user by email, set `confirmed = True`, commit. -/
def confirmed_email (db : List UserRec) (r : Redis) (email : String) :
    Except Fault (List UserRec × Redis) :=
  match get_user_by_email db email with
  | none => .ok (db, r)
  | some user =>
      let user' := { user with confirmed := true }
      let db' := db.map (fun u => if u.id == user.id then user' else u)
      match sqlalchemyAfterUpdate r user' with
      | .error e => .error e
      | .ok r' => .ok (db', r')

/-- A Python `datetime.date`: year, month, day. -/
structure PyDate where
  year : Int
  month : Int
  day : Int
  deriving Repr, DecidableEq

/-- Gregorian leap-year rule. -/
def isLeapYear (y : Int) : Bool :=
  (y % 4 == 0 && y % 100 != 0) || y % 400 == 0

/-- Number of days in a Gregorian month. -/
def daysInMonth (y m : Int) : Int :=
  if m == 2 then (if isLeapYear y then 29 else 28)
  else if m == 4 || m == 6 || m == 9 || m == 11 then 30
  else 31

/-- The day after a given date. -/
def nextDay (d : PyDate) : PyDate :=
  if d.day < daysInMonth d.year d.month then ⟨d.year, d.month, d.day + 1⟩
  else if d.month < 12 then ⟨d.year, d.month + 1, 1⟩
  else ⟨d.year + 1, 1, 1⟩

/-- `d + timedelta(days=n)`. -/
def addDays (d : PyDate) : Nat → PyDate
  | 0 => d
  | n + 1 => addDays (nextDay d) n

/-- The `ContactModel` request schema from src/schemas/contacts.py. -/
structure ContactModel where
  first_name : String
  last_name : String
  email : String
  phone_number : String
  birthday : PyDate
  description : String
  deriving Repr, DecidableEq

/-- The `contacts` ORM row from src/database/models/contacts.py. -/
structure ContactRec where
  id : Int
  first_name : String
  last_name : String
  email : String
  phone_number : String
  birthday : PyDate
  description : String
  user_id : Int
  deriving Repr, DecidableEq

/-- `ContactRepository.check_contact_duplicate` from
src/repository/contacts.py: select the owner's contacts whose email or
phone number matches the body, with `scalar_one_or_none()` — which raises
`MultipleResultsFound` when more than one row matches. -/
def check_contact_duplicate (contacts : List ContactRec) (body : ContactModel)
    (user : UserRec) : Except Fault Bool :=
  match contacts.filter (fun c =>
      c.user_id == user.id &&
      (c.email == body.email || c.phone_number == body.phone_number)) with
  | [] => .ok false
  | [_] => .ok true
  | _ => .error .multipleResultsFound

/-- `ContactRepository.create_contact` from src/repository/contacts.py:
raise `ValueError` on a duplicate, otherwise insert and return the new row. -/
def ContactRepository.create_contact (contacts : List ContactRec)
    (body : ContactModel) (user : UserRec) (newId : Int) :
    Except Fault (ContactRec × List ContactRec) :=
  match check_contact_duplicate contacts body user with
  | .error e => .error e
  | .ok true =>
      .error (.valueError "Contact with this email or phone number already exists.")
  | .ok false =>
      let c : ContactRec :=
        ⟨newId, body.first_name, body.last_name, body.email, body.phone_number,
          body.birthday, body.description, user.id⟩
      .ok (c, contacts ++ [c])

/-- `ContactService.create_contact` from src/services/contacts.py: a
`ValueError` from the repository becomes an HTTP 400 with the error's
message; everything else passes through. -/
def ContactService.create_contact (contacts : List ContactRec)
    (body : ContactModel) (user : UserRec) (newId : Int) :
    Except Fault (ContactRec × List ContactRec) :=
  match ContactRepository.create_contact contacts body user newId with
  | .error (.valueError msg) => .error (.http ⟨400, msg, []⟩)
  | r => r

/-- `ContactRepository.get_contacts_with_upcoming_birthdays` from
src/repository/contacts.py: `future_date = today + timedelta(days=7)`, then
filter the owner's contacts by the four independent month/day comparisons
`extract(month) >= today.month`, `extract(day) >= today.day`,
`extract(month) <= future_date.month`, `extract(day) <= future_date.day`. -/
def get_contacts_with_upcoming_birthdays (contacts : List ContactRec)
    (user : UserRec) (today : PyDate) : List ContactRec :=
  let futureDate := addDays today 7
  contacts.filter (fun c =>
    c.user_id == user.id &&
    decide (today.month ≤ c.birthday.month) &&
    decide (today.day ≤ c.birthday.day) &&
    decide (c.birthday.month ≤ futureDate.month) &&
    decide (c.birthday.day ≤ futureDate.day))

/-- The user registered by the integration tests
(tests/test_integration_auth.py), post-confirmation. -/
def agentUser : UserRec :=
  ⟨1, "agent007", "agent007@gmail.com", .bcrypt "12345678", true,
    some "avatar-url", .user⟩

/-- A user whose snapshot sits in the identity cache. -/
def cachedUser : UserRec :=
  ⟨1, "u1", "u1@x.com", .bcrypt "pw", true, some "old-avatar", .user⟩

/-- A cache holding `cachedUser`'s snapshot, live until time 100. -/
def cacheWithSnapshot : Redis :=
  ⟨true, [⟨"username:u1", cachedUser, 100⟩]⟩

/-- An unreachable Redis server. -/
def downRedis : Redis :=
  ⟨false, []⟩

/-- A contact owner. -/
def ownerUser : UserRec :=
  ⟨1, "owner", "owner@x.com", .bcrypt "pw", true, none, .user⟩

/-- An existing contact of `ownerUser`. -/
def existingContact : ContactRec :=
  ⟨1, "Ann", "Smith", "a@x.com", "+15551234567", ⟨1990, 5, 1⟩, "friend", 1⟩

/-- A second contact submission with the same email and a different phone. -/
def duplicateBody : ContactModel :=
  ⟨"Ann", "Smith", "a@x.com", "+15559999999", ⟨1990, 5, 1⟩, "friend"⟩

/-- Another existing contact of `ownerUser`, whose phone number equals
`duplicateBody`'s phone while its email differs — so `duplicateBody`
matches `existingContact` by email and this contact by phone. -/
def secondContact : ContactRec :=
  ⟨2, "Cara", "Shaw", "c@x.com", "+15559999999", ⟨1991, 6, 2⟩, "colleague", 1⟩

/-- A contact of `ownerUser` whose birthday (March 1) falls within 7 days of
February 26 but has a smaller day-of-month. -/
def marchContact : ContactRec :=
  ⟨3, "Bob", "Lee", "b@x.com", "+15550000000", ⟨1990, 3, 1⟩, "note", 1⟩

/-- Reading `settings.JWT_REFRESH_EXP_DAYS` always raises `AttributeError`:
the field list of `class Settings` does not contain it. -/
theorem jwt_refresh_exp_days_missing (s : Settings) :
    s.JWT_REFRESH_EXP_DAYS = .error (.attributeError "JWT_REFRESH_EXP_DAYS") := rfl

/-- Calling `UserService.update_user_password` always raises
`AttributeError`: `UserRepository` defines no such method. -/
theorem update_user_password_missing (db : List UserRec) (u : UserRec)
    (h : Digest) :
    UserService.update_user_password db u h =
      .error (.attributeError "update_user_password") := rfl

/-- A successful `jose` decode returns exactly the token's payload. -/
theorem joseDecode_ok_eq {t : JwtToken} {key : String} {now : Int}
    {p : Payload} (h : joseDecode t key now = .ok p) : p = t.payload := by
  unfold joseDecode at h
  by_cases hs : t.sig = key
  · rw [if_neg (not_not_intro hs)] at h
    cases he : t.payload.exp with
    | none => rw [he] at h; exact (Except.ok.inj h).symm
    | some e =>
        rw [he] at h
        by_cases hlt : e < now
        · simp [hlt] at h
        · simp [hlt] at h; exact h.symm
  · rw [if_pos hs] at h; exact absurd h (by simp)

/-- A successful `jwt_decode` returns exactly the token's payload. -/
theorem jwt_decode_ok_eq {s : Settings} {now : Int} {t : JwtToken}
    {p : Payload} (h : jwt_decode s now t = .ok p) : p = t.payload := by
  unfold jwt_decode at h
  cases hd : joseDecode t s.JWT_SECRET now with
  | error e => rw [hd] at h; exact absurd h (by simp)
  | ok q =>
      rw [hd] at h
      have hq : q = p := Except.ok.inj h
      exact hq ▸ joseDecode_ok_eq hd

/-- C1: for a registered, confirmed identity, login with the correct
password does NOT return a token pair: `create_refresh_token` reads
`settings.JWT_REFRESH_EXP_DAYS`, a field `class Settings` never declares,
so every successful credential check ends in an uncaught `AttributeError`
instead of the `{access_token, refresh_token, token_type: "bearer"}`
response the spec (and tests/test_integration_auth.py::test_login)
promise. -/
theorem login_confirmed_user_raises_attribute_error
    (s : Settings) (db : List UserRec) (now : Int) (uname pw : String)
    (user : UserRec)
    (hfind : get_user_by_username db uname = some user)
    (hpw : user.password = .bcrypt pw)
    (hconf : user.confirmed = true) :
    login_user s db now uname pw =
      .error (.attributeError "JWT_REFRESH_EXP_DAYS") := by
  have hv : Hash.verify_password pw user.password = .ok true := by
    simp [Hash.verify_password, hpw]
  simp [login_user, hfind, hv, hconf, create_token_pair, create_refresh_token,
    jwt_refresh_exp_days_missing]

/-- C1 witness: the confirmed test user with the correct password. -/
theorem login_confirmed_user_raises_attribute_error_witness :
    get_user_by_username [agentUser] "agent007" = some agentUser ∧
    agentUser.password = .bcrypt "12345678" ∧
    agentUser.confirmed = true ∧
    login_user defaultSettings [agentUser] 0 "agent007" "12345678" =
      .error (.attributeError "JWT_REFRESH_EXP_DAYS") :=
  ⟨rfl, rfl, rfl,
    login_confirmed_user_raises_attribute_error defaultSettings [agentUser] 0
      "agent007" "12345678" agentUser rfl rfl rfl⟩

/-- C2: for an existing user and a valid reset token naming the user's
email, `reset_password` does NOT replace the stored hash: the service
forwards to `UserRepository.update_user_password`, a method the repository
does not define, so the request dies in an uncaught `AttributeError`
instead of the "password successfully saved" response the spec (and
tests/test_integration_auth.py::test_reset_password_success) promise. -/
theorem reset_password_raises_attribute_error
    (s : Settings) (db : List UserRec) (now : Int) (token : JwtToken)
    (email newPw : String) (user : UserRec)
    (htok : get_email_from_token s now token = .ok email)
    (hfind : get_user_by_email db email = some user) :
    reset_password s db now token newPw =
      .error (.attributeError "update_user_password") := by
  simp [reset_password, htok, hfind, update_user_password_missing]

/-- C2 witness: a freshly issued email token for the existing test user. -/
theorem reset_password_raises_attribute_error_witness :
    get_email_from_token defaultSettings 0
      (create_email_token defaultSettings 0 "agent007@gmail.com") =
        .ok "agent007@gmail.com" ∧
    get_user_by_email [agentUser] "agent007@gmail.com" = some agentUser ∧
    reset_password defaultSettings [agentUser] 0
      (create_email_token defaultSettings 0 "agent007@gmail.com")
      "newpassword" = .error (.attributeError "update_user_password") :=
  ⟨rfl, rfl,
    reset_password_raises_attribute_error defaultSettings [agentUser] 0
      (create_email_token defaultSettings 0 "agent007@gmail.com")
      "agent007@gmail.com" "newpassword" agentUser rfl rfl⟩

/-- C6 counterexample: on a digest passlib cannot identify,
`Hash.verify_password` raises `UnknownHashError` — it does not return
false, refuting "never throws on malformed digest, returns false". -/
theorem verify_raises_on_malformed_digest :
    Hash.verify_password "password" (.malformed "not-a-hash") =
      .error .unknownHashError := rfl

/-- C6 amended: on a well-formed bcrypt digest `verify` never throws and
returns whether the plaintext matches; on a malformed digest it raises
`UnknownHashError` instead of returning false. -/
theorem verify_password_behavior (plain stored raw : String) :
    Hash.verify_password plain (.bcrypt stored) = .ok (plain == stored) ∧
    Hash.verify_password plain (.malformed raw) = .error .unknownHashError :=
  ⟨rfl, rfl⟩

/-- C7 counterexample: creating a second contact with the owner's existing
email (different phone) is rejected with HTTP 400, not the HTTP 409 the
claim states. -/
theorem duplicate_contact_returns_400_not_409 :
    ContactService.create_contact [existingContact] duplicateBody ownerUser 2 =
      .error (.http ⟨400,
        "Contact with this email or phone number already exists.", []⟩) ∧
    (400 : Nat) ≠ 409 :=
  ⟨rfl, by decide⟩

/-- C7 amended: a duplicate contact submission never succeeds and never
inserts a record, but the failure is not HTTP 409 — and not uniformly
HTTP 400 either: when the matching rows of the owner are exactly one
contact, creation fails with HTTP 400 "Contact with this email or phone
number already exists."; when the body's email matches one existing
contact and its phone number a different one, `scalar_one_or_none` raises
`MultipleResultsFound`, which nothing catches (only `ValueError` is), so
the request fails as an unhandled fault. -/
theorem duplicate_contact_never_inserted
    (contacts : List ContactRec) (body : ContactModel) (user : UserRec)
    (newId : Int) :
    (∀ d, contacts.filter (fun c =>
        c.user_id == user.id &&
        (c.email == body.email || c.phone_number == body.phone_number)) =
          [d] →
      ContactService.create_contact contacts body user newId =
        .error (.http ⟨400,
          "Contact with this email or phone number already exists.", []⟩)) ∧
    (∀ d1 d2 rest, contacts.filter (fun c =>
        c.user_id == user.id &&
        (c.email == body.email || c.phone_number == body.phone_number)) =
          d1 :: d2 :: rest →
      ContactService.create_contact contacts body user newId =
        .error .multipleResultsFound) ∧
    (contacts.filter (fun c =>
        c.user_id == user.id &&
        (c.email == body.email || c.phone_number == body.phone_number)) ≠
          [] →
      ∀ cNew cs, ContactService.create_contact contacts body user newId ≠
        .ok (cNew, cs)) := by
  refine ⟨?_, ?_, ?_⟩
  · intro d hdup
    simp [ContactService.create_contact, ContactRepository.create_contact,
      check_contact_duplicate, hdup]
  · intro d1 d2 rest hdup
    simp [ContactService.create_contact, ContactRepository.create_contact,
      check_contact_duplicate, hdup]
  · intro hne cNew cs hok
    cases hfil : contacts.filter (fun c =>
        c.user_id == user.id &&
        (c.email == body.email || c.phone_number == body.phone_number)) with
    | nil => exact hne hfil
    | cons d tail =>
        cases tail with
        | nil =>
            simp [ContactService.create_contact,
              ContactRepository.create_contact, check_contact_duplicate,
              hfil] at hok
        | cons d2 rest =>
            simp [ContactService.create_contact,
              ContactRepository.create_contact, check_contact_duplicate,
              hfil] at hok

/-- C7 witness: the duplicate-email submission against one existing
contact yields the HTTP 400, and the same submission against two existing
contacts — one matching by email, the other by phone — yields the
uncaught `MultipleResultsFound`. -/
theorem duplicate_contact_never_inserted_witness :
    [existingContact].filter (fun c =>
        c.user_id == ownerUser.id &&
        (c.email == duplicateBody.email ||
         c.phone_number == duplicateBody.phone_number)) = [existingContact] ∧
    ContactService.create_contact [existingContact] duplicateBody ownerUser 3 =
      .error (.http ⟨400,
        "Contact with this email or phone number already exists.", []⟩) ∧
    [existingContact, secondContact].filter (fun c =>
        c.user_id == ownerUser.id &&
        (c.email == duplicateBody.email ||
         c.phone_number == duplicateBody.phone_number)) =
      existingContact :: secondContact :: [] ∧
    ContactService.create_contact [existingContact, secondContact]
      duplicateBody ownerUser 3 = .error .multipleResultsFound :=
  ⟨rfl,
    (duplicate_contact_never_inserted [existingContact] duplicateBody
      ownerUser 3).1 existingContact rfl,
    rfl,
    (duplicate_contact_never_inserted [existingContact, secondContact]
      duplicateBody ownerUser 3).2.1 existingContact secondContact [] rfl⟩

/-- C8: a token whose `exp` is in the past is rejected by every decoder —
`jwt_decode` answers the 401 `credential_exception`, and the email and
refresh decoders answer their 422 errors — regardless of whether the
signature is valid. -/
theorem expired_token_always_rejected
    (s : Settings) (now : Int) (t : JwtToken) (e : Int)
    (hexp : t.payload.exp = some e) (hpast : e < now) :
    jwt_decode s now t = .error (.http credential_exception) ∧
    get_email_from_token s now t =
      .error (.http ⟨422, "Uncorrect token for email check", []⟩) ∧
    get_username_from_token_refresh s now t =
      .error (.http ⟨422, "Uncorrect token for username check", []⟩) := by
  have hdec : joseDecode t s.JWT_SECRET now = .error () := by
    unfold joseDecode
    by_cases hs : t.sig = s.JWT_SECRET
    · simp [hs, hexp, hpast]
    · simp [hs]
  exact ⟨by simp [jwt_decode, hdec], by simp [get_email_from_token, hdec],
    by simp [get_username_from_token_refresh, hdec]⟩

/-- C8 witness: a correctly signed token that expired at time 10,
presented at time 100. -/
theorem expired_token_always_rejected_witness :
    (joseEncode ⟨some "u", some "access", none, some 10⟩
        "your_jwt_secret").payload.exp = some 10 ∧
    (10 : Int) < 100 ∧
    (joseEncode ⟨some "u", some "access", none, some 10⟩
        "your_jwt_secret").sig = defaultSettings.JWT_SECRET ∧
    jwt_decode defaultSettings 100
      (joseEncode ⟨some "u", some "access", none, some 10⟩
        "your_jwt_secret") = .error (.http credential_exception) :=
  ⟨rfl, by decide, rfl,
    (expired_token_always_rejected defaultSettings 100
      (joseEncode ⟨some "u", some "access", none, some 10⟩ "your_jwt_secret")
      10 rfl (by decide)).1⟩

/-- C9: a login attempt with an unknown username and one with an existing
confirmed username but wrong password produce the identical response: the
same 401 with the generic "Incorrect login or password" detail. -/
theorem login_failures_indistinguishable
    (s : Settings) (db : List UserRec) (now : Int)
    (u1 p1 u2 p2 storedPw : String) (user : UserRec)
    (h1 : get_user_by_username db u1 = none)
    (h2 : get_user_by_username db u2 = some user)
    (hpw : user.password = .bcrypt storedPw)
    (hwrong : p2 ≠ storedPw)
    (_hconf : user.confirmed = true) :
    login_user s db now u1 p1 = .error (.http incorrectLoginError) ∧
    login_user s db now u2 p2 = .error (.http incorrectLoginError) := by
  constructor
  · simp [login_user, h1]
  · have hne : (p2 == storedPw) = false := by
      simpa using hwrong
    simp [login_user, h2, Hash.verify_password, hpw, hne]

/-- C9 witness: unknown username "nosuchuser" versus the confirmed
"agent007" with a wrong password. -/
theorem login_failures_indistinguishable_witness :
    get_user_by_username [agentUser] "nosuchuser" = none ∧
    ("wrongpw" : String) ≠ "12345678" ∧
    login_user defaultSettings [agentUser] 0 "nosuchuser" "anypw" =
      .error (.http incorrectLoginError) ∧
    login_user defaultSettings [agentUser] 0 "agent007" "wrongpw" =
      .error (.http incorrectLoginError) := by
  have h := login_failures_indistinguishable defaultSettings [agentUser] 0
    "nosuchuser" "anypw" "agent007" "wrongpw" "12345678" agentUser
    rfl rfl rfl (by decide) rfl
  exact ⟨rfl, by decide, h.1, h.2⟩

/-- C3 counterexample: a token of purpose `access` presented to the
email-verification decoder is accepted and resolves to its subject — the
decoder never rejects on purpose, refuting "a token whose purpose is access
or refresh is never accepted by the email-verification decoder". -/
theorem email_decoder_accepts_access_token :
    (create_access_token defaultSettings 0 "user@example.com").payload.type =
      some "access" ∧
    get_email_from_token defaultSettings 0
      (create_access_token defaultSettings 0 "user@example.com") =
        .ok "user@example.com" :=
  ⟨rfl, rfl⟩

/-- C3 amended: the session resolver never accepts a token whose `type` is
not "access", and the refresh decoder never accepts a token whose `type` is
not "refresh"; but the email-verification decoder performs no purpose check
at all — any validly signed, unexpired token carrying a `sub` (in
particular every access token) is accepted and its subject returned. -/
theorem purpose_checks_as_implemented
    (s : Settings) (r : Redis) (db : List UserRec) (now : Int)
    (t : JwtToken) :
    (t.payload.type ≠ some "access" →
      ∀ u r', get_current_user s r db now t ≠ .ok (u, r')) ∧
    (t.payload.type ≠ some "refresh" →
      ∀ u, get_username_from_token_refresh s now t ≠ .ok u) ∧
    (∀ sub iss, ¬ (iss + 60 * s.JWT_EXP_MIN < now) →
      get_email_from_token s now (create_access_token s iss sub) = .ok sub) := by
  refine ⟨?_, ?_, ?_⟩
  · intro hty u r' hok
    unfold get_current_user at hok
    cases hd : jwt_decode s now t with
    | error e => rw [hd] at hok; simp at hok
    | ok payload =>
        rw [hd] at hok
        have hp : payload = t.payload := jwt_decode_ok_eq hd
        rw [hp] at hok
        simp [hty] at hok
  · intro hty u hok
    unfold get_username_from_token_refresh at hok
    cases hd : joseDecode t s.JWT_SECRET now with
    | error e => rw [hd] at hok; simp at hok
    | ok payload =>
        rw [hd] at hok
        have hp : payload = t.payload := joseDecode_ok_eq hd
        rw [hp] at hok
        cases hs : t.payload.sub with
        | none => simp [hs] at hok
        | some username => simp [hs, hty] at hok
  · intro sub iss hexp
    simp [get_email_from_token, create_access_token, joseEncode, joseDecode,
      hexp]

/-- C3 witness: the session-resolver and refresh-decoder rejections at a
concrete email token (which carries no `type` claim), and the email
decoder accepting a concrete access token. -/
theorem purpose_checks_as_implemented_witness :
    (create_email_token defaultSettings 0 "agent007@gmail.com").payload.type =
      none ∧
    (∀ u r', get_current_user defaultSettings ⟨true, []⟩ [agentUser] 0
      (create_email_token defaultSettings 0 "agent007@gmail.com") ≠
        .ok (u, r')) ∧
    (∀ u, get_username_from_token_refresh defaultSettings 0
      (create_email_token defaultSettings 0 "agent007@gmail.com") ≠ .ok u) ∧
    get_email_from_token defaultSettings 0
      (create_access_token defaultSettings 0 "agent007@gmail.com") =
        .ok "agent007@gmail.com" := by
  have h := purpose_checks_as_implemented defaultSettings ⟨true, []⟩
    [agentUser] 0 (create_email_token defaultSettings 0 "agent007@gmail.com")
  exact ⟨rfl, h.1 (by decide), h.2.1 (by decide),
    h.2.2 "agent007@gmail.com" 0 (by decide)⟩

/-- C4: an avatar update does not invalidate the cached identity snapshot:
the `after_update` listeners of src/events/user_cache.py are never
registered (no module imports `src.events.user_cache`), so a cache lookup
for the username after the update, within the 60-second TTL, still returns
the stale pre-update snapshot — contradicting "any subsequent cache lookup
for that username either misses or returns the updated value". -/
theorem avatar_update_leaves_stale_cache :
    update_avatar_url [cachedUser] cacheWithSnapshot "u1@x.com" "new-avatar" =
      .ok (some { cachedUser with avatar := some "new-avatar" },
        [{ cachedUser with avatar := some "new-avatar" }], cacheWithSnapshot) ∧
    redis_get cacheWithSnapshot "username:u1" 20 = .ok (some cachedUser) ∧
    cachedUser.avatar ≠ some "new-avatar" :=
  ⟨rfl, rfl, by decide⟩

/-- C5 counterexample: with the cache server unreachable, a request with a
valid access token for an existing identity is not resolved via the
persistent store — the uncaught Redis connection error fails the request,
refuting "cache unavailability is treated as an unconditional miss and
never fails the request". -/
theorem resolver_fails_when_cache_unavailable :
    get_user_by_username [cachedUser] "u1" = some cachedUser ∧
    get_current_user defaultSettings downRedis [cachedUser] 0
      (create_access_token defaultSettings 0 "u1") =
        .error .redisConnectionError :=
  ⟨rfl, rfl⟩

/-- C5 amended: when the cache answers a miss (`None`), the resolver falls
back to the persistent store, resolves the identity and populates the
cache; but when the cache server is unreachable, the connection error
propagates and the request fails instead of degrading to the store. -/
theorem resolver_cache_miss_falls_back_to_store
    (s : Settings) (r : Redis) (db : List UserRec) (now iss : Int)
    (uname : String) (user : UserRec)
    (hmiss : redis_get r ("username:" ++ uname) now = .ok none)
    (hfind : get_user_by_username db uname = some user)
    (hexp : ¬ (iss + 60 * s.JWT_EXP_MIN < now)) :
    get_current_user s r db now (create_access_token s iss uname) =
      .ok (toSchemaUser user,
        ⟨r.available,
          ⟨"username:" ++ uname, user, now + 60⟩ ::
            r.entries.filter (fun e => e.key != "username:" ++ uname)⟩) ∧
    (∀ rdown : Redis, rdown.available = false →
      get_current_user s rdown db now (create_access_token s iss uname) =
        .error .redisConnectionError) := by
  have hav : r.available = true := by
    by_contra hc
    have hfalse : r.available = false := by
      cases hvalue : r.available
      · rfl
      · exact absurd hvalue hc
    unfold redis_get at hmiss
    rw [hfalse] at hmiss
    simp at hmiss
  constructor
  · simp [get_current_user, jwt_decode, joseDecode, create_access_token,
      joseEncode, hexp, hmiss, hfind, redis_set, hav]
  · intro rdown hdown
    simp [get_current_user, jwt_decode, joseDecode, create_access_token,
      joseEncode, hexp, redis_get, hdown]

/-- C5 witness: an empty reachable cache (a miss) resolves the cached user
via the store and populates the cache with a 60-second TTL. -/
theorem resolver_cache_miss_falls_back_to_store_witness :
    redis_get ⟨true, []⟩ "username:u1" 0 = .ok none ∧
    get_current_user defaultSettings ⟨true, []⟩ [cachedUser] 0
      (create_access_token defaultSettings 0 "u1") =
        .ok (toSchemaUser cachedUser, ⟨true, [⟨"username:u1", cachedUser, 60⟩]⟩) := by
  have h := (resolver_cache_miss_falls_back_to_store defaultSettings
    ⟨true, []⟩ [cachedUser] 0 0 "u1" cachedUser rfl rfl (by decide)).1
  exact ⟨rfl, h⟩

/-- C10: the upcoming-birthdays query returns exactly the contacts owned by
the user whose birthday month and day each lie between today's and
`today + 7 days`' month and day, the four bounds compared independently;
consequently a contact with a smaller day-of-month (or smaller month
number) than today's is never returned, even when its birthday falls
within the next 7 days across a month or year boundary. -/
theorem upcoming_birthdays_characterization
    (contacts : List ContactRec) (user : UserRec) (today : PyDate)
    (c : ContactRec) :
    (c ∈ get_contacts_with_upcoming_birthdays contacts user today ↔
      c ∈ contacts ∧ c.user_id = user.id ∧
      today.month ≤ c.birthday.month ∧ today.day ≤ c.birthday.day ∧
      c.birthday.month ≤ (addDays today 7).month ∧
      c.birthday.day ≤ (addDays today 7).day) ∧
    (c.birthday.day < today.day →
      c ∉ get_contacts_with_upcoming_birthdays contacts user today) ∧
    (c.birthday.month < today.month →
      c ∉ get_contacts_with_upcoming_birthdays contacts user today) := by
  have hiff : c ∈ get_contacts_with_upcoming_birthdays contacts user today ↔
      c ∈ contacts ∧ c.user_id = user.id ∧
      today.month ≤ c.birthday.month ∧ today.day ≤ c.birthday.day ∧
      c.birthday.month ≤ (addDays today 7).month ∧
      c.birthday.day ≤ (addDays today 7).day := by
    simp [get_contacts_with_upcoming_birthdays, List.mem_filter, and_assoc]
  refine ⟨hiff, ?_, ?_⟩
  · intro hday hmem
    obtain ⟨-, -, -, h4, -, -⟩ := hiff.mp hmem
    omega
  · intro hmonth hmem
    obtain ⟨-, -, h3, -, -, -⟩ := hiff.mp hmem
    omega

/-- C10 witness: on February 26, 2026 the 7-day window ends March 5, yet
the contact with birthday March 1 — inside that window — is excluded,
because its day-of-month 1 is smaller than today's 26. -/
theorem upcoming_birthdays_characterization_witness :
    addDays ⟨2026, 2, 26⟩ 7 = ⟨2026, 3, 5⟩ ∧
    marchContact.birthday.day < (26 : Int) ∧
    marchContact ∉
      get_contacts_with_upcoming_birthdays [marchContact] ownerUser
        ⟨2026, 2, 26⟩ :=
  ⟨rfl, by decide,
    (upcoming_birthdays_characterization [marchContact] ownerUser
      ⟨2026, 2, 26⟩ marchContact).2.1 (by decide)⟩
